import Mathlib

/-!
Shallow embedding of `src/boot.c` (SeaBIOS boot-device resolution and
control transfer) and proofs of the specification's claims about it.

Machine integers are modelled as `Nat` with explicit truncation (`% 2^w`)
where the C code's fixed-width arithmetic can overflow.  External
collaborators (the INT 13h disk read, `cdrom_boot`, the EBDA CD-emulation
state) are modelled as an explicit `World` of their observable answers,
and the user-visible / diagnostic output and I/O calls of `try_boot` are
recorded as an explicit event trace.
-/

namespace Boot

/-- Modelled from the spec: `boot.h` is not in the repository.  The IPL
type constants, with values evident from `boot.c` itself: `drivetypes`
is indexed directly by the type value (`"", "Floppy", "Hard Disk",
"CD-Rom", "Network"`), and the comment `NIC appears as type 0x80`
together with `if (type == IPL_TYPE_BEV) type = 0x4` fixes the BEV
constant. -/
def IPL_TYPE_FLOPPY : Nat := 1

/-- Hard-disk IPL type constant (see `IPL_TYPE_FLOPPY` for provenance). -/
def IPL_TYPE_HARDDISK : Nat := 2

/-- CD-ROM IPL type constant (see `IPL_TYPE_FLOPPY` for provenance). -/
def IPL_TYPE_CDROM : Nat := 3

/-- Bootstrap-entry-vector IPL type constant (see `IPL_TYPE_FLOPPY`). -/
def IPL_TYPE_BEV : Nat := 0x80

/-- Modelled from the spec: `disk.h` is not in the repository; the spec
says the loaded sector's trailing 2-byte signature must equal the fixed
value 0xAA55. -/
def MBR_SIGNATURE : Nat := 0xaa55

/-- Modelled from the spec: `bregs.h` is not in the repository; the
carry flag is bit 0 of the x86 FLAGS register, tested by
`cr.flags & F_CF` in `boot.c`. -/
def F_CF : Nat := 1

/-- One IPL table entry (`struct ipl_entry_s`): the device type and the
32-bit bootstrap entry vector.  The optional BEV description string only
affects the printed label text and is not modelled. -/
structure IplEntry where
  type : Nat
  vector : Nat
deriving DecidableEq

/-- Default value read when indexing outside the populated table. -/
def noEntry : IplEntry := ⟨0, 0⟩

/-- The global `IPL` state (`struct ipl_s`): packed 32-bit boot order,
populated entry count, the entry table and the floppy-signature policy
flag. -/
structure Ipl where
  bootorder : Nat
  count : Nat
  table : List IplEntry
  checkfloppysig : Bool
deriving DecidableEq

/-- Compile-time configuration flags referenced by `try_boot`. -/
structure Config where
  configBoot : Bool
  configCdromBoot : Bool
deriving DecidableEq

/-- Observable answers of the external collaborators for one attempt:
the FLAGS word returned by the INT 13h sector read, the status returned
by `cdrom_boot()`, the emulated drive id and load segment published in
the EBDA by CD emulation, and the 16-bit word sitting at the loaded
sector's signature location. -/
structure World where
  diskFlags : Nat
  cdromStatus : Nat
  cdemuDrive : Nat
  cdemuLoadSeg : Nat
  sigWord : Nat
deriving DecidableEq

/-- Modelled from the spec: `bregs.h` is not in the repository.  The
register file handed to `call16` — the slots `boot.c` assigns (`ip`,
`cs`, `ax`, `dl` inside `dx`, `es`, `cl` inside `cx`, `flags`) plus the
remaining general registers that `memset` clears. -/
structure Bregs where
  ds : Nat
  es : Nat
  di : Nat
  si : Nat
  bp : Nat
  bx : Nat
  dx : Nat
  cx : Nat
  ax : Nat
  flags : Nat
  ip : Nat
  cs : Nat
deriving DecidableEq

/-- The all-zero register frame produced by `memset(&cr, 0, sizeof(cr))`. -/
def zeroBregs : Bregs := ⟨0, 0, 0, 0, 0, 0, 0, 0, 0, 0, 0, 0⟩

/-- Messages of the three `BX_PANIC` sites reachable from `try_boot`. -/
inductive PanicMsg where
  | bootNotCompiledIn
  | noBootableDevice
  | badDriveType
deriving DecidableEq

/-- Observable events of one `try_boot` run: user-visible output
(`bootingFrom`, `cdromFailureCode`, `bootFailure`), diagnostic-level
output (`diagInvalidBootdev`, `diagBootingFromAddr`) and external I/O
calls (`diskRead`, `cdromBootCall`). -/
inductive Event where
  | bootingFrom (bootdev : Nat)
  | diskRead (drive seg : Nat)
  | cdromBootCall
  | cdromFailureCode (status : Nat)
  | bootFailure (typ reason : Nat)
  | diagInvalidBootdev (bootdev : Nat)
  | diagBootingFromAddr (seg ip : Nat)
deriving DecidableEq

/-- How one `try_boot` run ends: a `BX_PANIC` (halt), a plain return to
the caller, or the irrevocable `call16` control transfer. -/
inductive TryBootResult where
  | panic (m : PanicMsg)
  | ret
  | transfer (f : Bregs)
deriving DecidableEq

/-- Event trace plus final result of one `try_boot` run. -/
structure Outcome where
  events : List Event
  result : TryBootResult
deriving DecidableEq

/-- Extraction of the 4-bit boot-order field for one attempt
(`boot.c` lines 85-87): `bootdev = IPL.bootorder; bootdev >>= 4 * seq_nr;
bootdev &= 0xf;`. -/
def extractField (order seq_nr : Nat) : Nat :=
  (order >>> (4 * seq_nr)) &&& 0xf

/-- The resolve step (`boot.c` lines 85-93): a zero field means no
bootable device (the caller panics); otherwise the field minus 1 is the
candidate IPL table index. -/
def resolveIndex (order seq_nr : Nat) : Option Nat :=
  let f := extractField order seq_nr
  if f = 0 then none else some (f - 1)

/-- Canonicalization of `bootseg:bootip` (`boot.c` lines 140-142 and
158-160): `bootip = (bootseg & 0x0fff) << 4; bootseg &= 0xf000;`.
Returns the (segment, offset) pair. -/
def canonicalize (s : Nat) : Nat × Nat :=
  ((s &&& 0xf000), (s &&& 0x0fff) <<< 4)

/-- The register frame built for the final control transfer (`boot.c`
lines 178-183): `memset` to zero, then `cr.ip = bootip; cr.cs = bootseg;
cr.dl = bootdrv; cr.ax = 0xaa55;` (`dl` is the low byte of `dx`). -/
def transferFrame (bootseg bootip bootdrv : Nat) : Bregs :=
  let cr := zeroBregs
  let cr := { cr with ip := bootip }
  let cr := { cr with cs := bootseg }
  let cr := { cr with dx := ((cr.dx &&& 0xff00) ||| bootdrv) }
  { cr with ax := 0xaa55 }

/-- `printf_bootdev` (`boot.c` lines 26-48) reduced to its control
effect: BEV displays as type 4; a type of 0 or above 4 is a fatal
`BX_PANIC("Bad drive type")`.  The printed label text itself is not
modelled. -/
def printf_bootdev (ipl : Ipl) (bootdev : Nat) : Option PanicMsg :=
  let typ := (ipl.table.getD bootdev noEntry).type
  let typ := if typ = IPL_TYPE_BEV then 0x4 else typ
  if typ = 0 ∨ 4 < typ then some PanicMsg.badDriveType else none

/-- `print_boot_failure` (`boot.c` lines 62-77): panics on a type of 0
or above 3, otherwise emits the user-visible boot-failure message with
its reason code (0 = not a bootable disk, nonzero = could not read). -/
def print_boot_failure (typ reason : Nat) : List Event × Option PanicMsg :=
  if typ = 0 ∨ 3 < typ then ([], some PanicMsg.badDriveType)
  else ([Event.bootFailure typ reason], none)

/-- Turn an optional panic from `print_boot_failure` into a `try_boot`
result: the panic if present, else a plain return. -/
def retOrPanic (p : Option PanicMsg) : TryBootResult :=
  p.elim TryBootResult.ret TryBootResult.panic

/-- The floppy / hard-disk arm of the dispatch switch (`boot.c` lines
110-143): set the drive id and fixed load segment 0x07c0, read one
sector via INT 13h, fail on carry, check the 0xAA55 signature when the
device is a hard disk or the floppy-signature policy is set, then
canonicalize the entry point. -/
def diskBoot (ipl : Ipl) (w : World) (typ : Nat) : List Event × TryBootResult :=
  let bootdrv : Nat := if typ = IPL_TYPE_HARDDISK then 0x80 else 0x00
  let bootseg : Nat := 0x07c0
  let ev := [Event.diskRead bootdrv bootseg]
  if w.diskFlags &&& F_CF ≠ 0 then
    let pf := print_boot_failure typ 1
    (ev ++ pf.1, retOrPanic pf.2)
  else if (typ ≠ IPL_TYPE_FLOPPY ∨ ipl.checkfloppysig = true) ∧ w.sigWord ≠ MBR_SIGNATURE then
    let pf := print_boot_failure typ 0
    (ev ++ pf.1, retOrPanic pf.2)
  else
    let c := canonicalize bootseg
    (ev ++ [Event.diagBootingFromAddr c.1 c.2],
     TryBootResult.transfer (transferFrame c.1 c.2 bootdrv))

/-- The CD-ROM arm of the dispatch switch (`boot.c` lines 144-162):
silently return when CD boot support is compiled out; call
`cdrom_boot()`, reporting a nonzero status; on success take the emulated
drive id and load segment from the EBDA and canonicalize. -/
def cdromBoot (cfg : Config) (w : World) (typ : Nat) : List Event × TryBootResult :=
  if cfg.configCdromBoot = false then ([], TryBootResult.ret)
  else
    if w.cdromStatus ≠ 0 then
      let pf := print_boot_failure typ 1
      ([Event.cdromBootCall, Event.cdromFailureCode w.cdromStatus] ++ pf.1, retOrPanic pf.2)
    else
      let bootdrv := w.cdemuDrive
      let c := canonicalize w.cdemuLoadSeg
      ([Event.cdromBootCall, Event.diagBootingFromAddr c.1 c.2],
       TryBootResult.transfer (transferFrame c.1 c.2 bootdrv))

/-- The BEV arm of the dispatch switch (`boot.c` lines 163-169): the
entry point comes straight from the 32-bit vector, segment from the high
16 bits and offset from the low 16; the drive id keeps its initial 0. -/
def bevBoot (entry : IplEntry) : List Event × TryBootResult :=
  let bootseg := entry.vector >>> 16
  let bootip := entry.vector &&& 0xffff
  ([Event.diagBootingFromAddr bootseg bootip],
   TryBootResult.transfer (transferFrame bootseg bootip 0))

/-- `print_boot_device` plus the dispatch switch of `try_boot`
(`boot.c` lines 100-184) for an in-range table index: print the device
(which panics on a bad type), then dispatch on the entry type; an
unhandled type falls to the switch default and returns silently. -/
def dispatch (cfg : Config) (ipl : Ipl) (w : World) (bootdev : Nat) : Outcome :=
  match printf_bootdev ipl bootdev with
  | some m => ⟨[Event.bootingFrom bootdev], TryBootResult.panic m⟩
  | none =>
    let entry := ipl.table.getD bootdev noEntry
    let r :=
      if entry.type = IPL_TYPE_FLOPPY ∨ entry.type = IPL_TYPE_HARDDISK then
        diskBoot ipl w entry.type
      else if entry.type = IPL_TYPE_CDROM then cdromBoot cfg w entry.type
      else if entry.type = IPL_TYPE_BEV then bevBoot entry
      else ([], TryBootResult.ret)
    ⟨Event.bootingFrom bootdev :: r.1, r.2⟩

/-- `try_boot` (`boot.c` lines 79-185): panic when boot support is
compiled out; extract the boot-order field, panicking on 0; drop an
out-of-range index with a diagnostic message only; otherwise dispatch
on the device type. -/
def try_boot (cfg : Config) (ipl : Ipl) (w : World) (seq_nr : Nat) : Outcome :=
  if cfg.configBoot = false then ⟨[], TryBootResult.panic PanicMsg.bootNotCompiledIn⟩
  else
    match resolveIndex ipl.bootorder seq_nr with
    | none => ⟨[], TryBootResult.panic PanicMsg.noBootableDevice⟩
    | some bootdev =>
      if ipl.count ≤ bootdev then ⟨[Event.diagInvalidBootdev bootdev], TryBootResult.ret⟩
      else dispatch cfg ipl w bootdev

/-- How one `do_boot` run ends: a panic, the irrevocable transfer, or
the INT 18h recovery invocation that follows a plain `try_boot` return. -/
inductive FinalResult where
  | panic (m : PanicMsg)
  | transfer (f : Bregs)
  | invokeRecovery
deriving DecidableEq

/-- `do_boot` (`boot.c` lines 187-196): run `try_boot`; when it returns
(boot failed or skipped), invoke the INT 18h boot-recovery service. -/
def do_boot (cfg : Config) (ipl : Ipl) (w : World) (seq_nr : Nat) :
    List Event × FinalResult :=
  let o := try_boot cfg ipl w seq_nr
  match o.result with
  | TryBootResult.ret => (o.events, FinalResult.invokeRecovery)
  | TryBootResult.panic m => (o.events, FinalResult.panic m)
  | TryBootResult.transfer f => (o.events, FinalResult.transfer f)

/-- `handle_18` (`boot.c` lines 199-208): read the persisted boot
sequence counter, add 1 into a `u16` local (hence the `% 2^16`), store
it back, and boot with the new value.  Returns the stored counter and
the boot outcome. -/
def handle_18 (cfg : Config) (ipl : Ipl) (w : World) (boot_sequence : Nat) :
    Nat × (List Event × FinalResult) :=
  let seq := (boot_sequence + 1) % 65536
  (seq, do_boot cfg ipl w seq)

/-- `handle_19` (`boot.c` lines 211-218): store 0 into the persisted
boot sequence counter and boot with sequence number 0. -/
def handle_19 (cfg : Config) (ipl : Ipl) (w : World) :
    Nat × (List Event × FinalResult) :=
  (0, do_boot cfg ipl w 0)

/-- Sample configuration: boot and CD-ROM boot support compiled in. -/
def cfg0 : Config := ⟨true, true⟩

/-- Sample world: successful sector read (no carry), successful CD
emulation publishing drive 0xE0 and load segment 0x2000, and a valid
0xAA55 signature in the loaded sector. -/
def w0 : World := ⟨0, 0, 0xE0, 0x2000, 0xaa55⟩

/-- Sample world with a failed sector read (carry flag set). -/
def wCarry : World := ⟨1, 0, 0xE0, 0x2000, 0xaa55⟩

/-- Sample world with a successful read but a bad boot signature. -/
def wBadSig : World := ⟨0, 0, 0xE0, 0x2000, 0x1234⟩

/-- Sample IPL state of the spec's scenario: boot order 0x21 (attempt 0
resolves to entry 0, attempt 1 to entry 1), table = hard disk then
floppy, floppy signature checking on. -/
def iplHD : Ipl := ⟨0x21, 2, [⟨2, 0⟩, ⟨1, 0⟩], true⟩

/-- Sample IPL state with a single BEV entry whose vector is the spec's
example value 0x12340056. -/
def iplBEV : Ipl := ⟨0x1, 1, [⟨0x80, 0x12340056⟩], false⟩

/-- Sample IPL state with a single `None` (type 0) entry. -/
def iplNone : Ipl := ⟨0x1, 1, [⟨0, 0⟩], false⟩

/-- Sample IPL state with a single type-4 (network label) entry. -/
def iplNet : Ipl := ⟨0x1, 1, [⟨4, 0⟩], false⟩

/-- Sample IPL state with a single CD-ROM entry. -/
def iplCD : Ipl := ⟨0x1, 1, [⟨3, 0⟩], false⟩

/-- Sample IPL state whose first boot-order field resolves to table
index 2, out of range for its single-entry table. -/
def iplOOR : Ipl := ⟨0x3, 1, [⟨2, 0⟩], false⟩

/-- Sample IPL state with an all-zero boot order. -/
def iplZero : Ipl := ⟨0, 2, [⟨2, 0⟩, ⟨1, 0⟩], true⟩

/-- Sample IPL state with a single floppy entry, signature policy off. -/
def iplFD : Ipl := ⟨0x1, 1, [⟨1, 0⟩], false⟩

/-- Sample IPL state with a single floppy entry, signature policy on. -/
def iplFDsig : Ipl := ⟨0x1, 1, [⟨1, 0⟩], true⟩

theorem and_shiftLeft_mask (x m k : Nat) :
    x &&& (m <<< k) = ((x >>> k) &&& m) <<< k := by
  apply Nat.eq_of_testBit_eq
  intro i
  simp only [Nat.testBit_and, Nat.testBit_shiftLeft, Nat.testBit_shiftRight]
  by_cases h : k ≤ i
  · have hi : k + (i - k) = i := by omega
    simp [ge_iff_le, h, hi, Bool.and_left_comm]
  · simp [ge_iff_le, h]

theorem and_f000 (s : Nat) : s &&& 0xf000 = s / 4096 % 16 * 4096 := by
  have h1 : (0xf000 : Nat) = 0xf <<< 12 := by decide
  rw [h1, and_shiftLeft_mask, Nat.shiftRight_eq_div_pow, Nat.shiftLeft_eq]
  have h2 : (0xf : Nat) = 2 ^ 4 - 1 := by norm_num
  rw [h2, Nat.and_pow_two_sub_one_eq_mod]

theorem and_0fff (s : Nat) : s &&& 0x0fff = s % 4096 := by
  have h2 : (0x0fff : Nat) = 2 ^ 12 - 1 := by norm_num
  rw [h2, Nat.and_pow_two_sub_one_eq_mod]

theorem mask_split (s : Nat) :
    (s &&& 0xf000) + (s &&& 0x0fff) = s % 65536 := by
  rw [and_f000, and_0fff]
  omega

/-- C3: Canonicalization law — for every 16-bit raw load segment S, the
derived pair offset = (S & 0x0fff) << 4 and segment = S & 0xf000
satisfies segment*16 + offset = S*16 truncated to 20 bits, i.e. the
canonical far pointer addresses the same physical byte as the flat
interpretation of S. -/
theorem canonicalize_law (s : Nat) (h : s < 65536) :
    (canonicalize s).1 * 16 + (canonicalize s).2 = s * 16 % 2 ^ 20 := by
  unfold canonicalize
  simp only [Nat.shiftLeft_eq]
  have hm := mask_split s
  have h20 : (2 : Nat) ^ 20 = 1048576 := by norm_num
  have h4 : (2 : Nat) ^ 4 = 16 := by norm_num
  rw [h20, h4]
  omega

theorem canonicalize_law_witness :
    0x07c0 < 65536 ∧
    (canonicalize 0x07c0).1 * 16 + (canonicalize 0x07c0).2 = 0x07c0 * 16 % 2 ^ 20 :=
  ⟨by decide, canonicalize_law 0x07c0 (by decide)⟩

/-- C7: for every attempt index in [0,7] and every boot order, the
resolve step extracts exactly the 4-bit field occupying bits
[4*attempt, 4*attempt+4) of the order (equivalently, order divided by
2^(4*attempt), modulo 16) and, when that field is nonzero, returns
field - 1 as the candidate table index.  Purity ("same inputs give the
same output, no persistent effects") holds by construction:
`extractField` and `resolveIndex` are functions of the order and the
attempt index alone. -/
theorem resolveIndex_spec (order a : Nat) (h : a ≤ 7) :
    extractField order a = order / 2 ^ (4 * a) % 16 ∧
    resolveIndex order a =
      (if order / 2 ^ (4 * a) % 16 = 0 then none
       else some (order / 2 ^ (4 * a) % 16 - 1)) := by
  have he : extractField order a = order / 2 ^ (4 * a) % 16 := by
    unfold extractField
    rw [Nat.shiftRight_eq_div_pow]
    have h2 : (0xf : Nat) = 2 ^ 4 - 1 := by norm_num
    rw [h2, Nat.and_pow_two_sub_one_eq_mod]
  exact ⟨he, by unfold resolveIndex; rw [he]⟩

theorem resolveIndex_spec_witness :
    1 ≤ 7 ∧
    (extractField 0x21 1 = 0x21 / 2 ^ (4 * 1) % 16 ∧
     resolveIndex 0x21 1 =
       (if 0x21 / 2 ^ (4 * 1) % 16 = 0 then none
        else some (0x21 / 2 ^ (4 * 1) % 16 - 1))) :=
  ⟨by decide, resolveIndex_spec 0x21 1 (by decide)⟩

/-- C1 (amended): the initial boot-service entry point (`handle_19`)
stores exactly 0 into the persisted boot-sequence counter, and the
recovery entry point (`handle_18`) stores the value at invocation plus
1 whenever that value is below 65535; the stored value is always
computed before the resolve-and-attempt cycle runs with it.  (At 65535
the 16-bit counter wraps to 0 — see the counterexample.) -/
theorem counter_reset_and_increment (cfg : Config) (ipl : Ipl) (w : World)
    (c : Nat) (h : c < 65535) :
    (handle_19 cfg ipl w).1 = 0 ∧ (handle_18 cfg ipl w c).1 = c + 1 := by
  refine ⟨rfl, ?_⟩
  unfold handle_18
  simp only
  omega

theorem counter_reset_and_increment_witness :
    5 < 65535 ∧
    ((handle_19 cfg0 iplHD w0).1 = 0 ∧ (handle_18 cfg0 iplHD w0 5).1 = 5 + 1) :=
  ⟨by decide, counter_reset_and_increment cfg0 iplHD w0 5 (by decide)⟩

/-- C1 counterexample: at counter value 65535 the recovery entry point
stores 0 (the u16 local wraps), which is neither the value plus 1 nor a
non-decrease. -/
theorem handle_18_wraps_at_65535 :
    (handle_18 cfg0 iplHD w0 65535).1 = 0 ∧
    (handle_18 cfg0 iplHD w0 65535).1 ≠ 65535 + 1 ∧
    (handle_18 cfg0 iplHD w0 65535).1 < 65535 := by
  refine ⟨rfl, by decide, by decide⟩

theorem printf_bootdev_cases (ipl : Ipl) (bd : Nat) :
    printf_bootdev ipl bd = none ∨
    printf_bootdev ipl bd = some PanicMsg.badDriveType := by
  simp only [printf_bootdev]
  split <;> split <;> simp

theorem retOrPanic_pbf (t r : Nat) :
    retOrPanic (print_boot_failure t r).2 = TryBootResult.ret ∨
    retOrPanic (print_boot_failure t r).2 =
      TryBootResult.panic PanicMsg.badDriveType := by
  unfold print_boot_failure retOrPanic
  split
  · right; rfl
  · left; rfl

theorem diskBoot_ne_noBootable (ipl : Ipl) (w : World) (t : Nat) :
    (diskBoot ipl w t).2 ≠ TryBootResult.panic PanicMsg.noBootableDevice := by
  simp only [diskBoot]
  split
  · rcases retOrPanic_pbf t 1 with h | h <;> simp [h]
  · split
    · rcases retOrPanic_pbf t 0 with h | h <;> simp [h]
    · simp

theorem cdromBoot_ne_noBootable (cfg : Config) (w : World) (t : Nat) :
    (cdromBoot cfg w t).2 ≠ TryBootResult.panic PanicMsg.noBootableDevice := by
  simp only [cdromBoot]
  split
  · simp
  · split
    · rcases retOrPanic_pbf t 1 with h | h <;> simp [h]
    · simp

theorem dispatch_ne_noBootable (cfg : Config) (ipl : Ipl) (w : World) (bd : Nat) :
    (dispatch cfg ipl w bd).result ≠
      TryBootResult.panic PanicMsg.noBootableDevice := by
  rcases printf_bootdev_cases ipl bd with h | h <;> simp only [dispatch, h]
  · split
    · exact diskBoot_ne_noBootable ipl w _
    · split
      · exact cdromBoot_ne_noBootable cfg w _
      · split
        · simp [bevBoot]
        · simp
  · simp

theorem try_boot_field_zero (cfg : Config) (ipl : Ipl) (w : World) (seq : Nat)
    (hcb : cfg.configBoot = true) (hf : extractField ipl.bootorder seq = 0) :
    try_boot cfg ipl w seq = ⟨[], TryBootResult.panic PanicMsg.noBootableDevice⟩ := by
  simp [try_boot, resolveIndex, hcb, hf]

theorem try_boot_some (cfg : Config) (ipl : Ipl) (w : World) (seq bd : Nat)
    (hcb : cfg.configBoot = true)
    (hr : resolveIndex ipl.bootorder seq = some bd) :
    try_boot cfg ipl w seq =
      if ipl.count ≤ bd then ⟨[Event.diagInvalidBootdev bd], TryBootResult.ret⟩
      else dispatch cfg ipl w bd := by
  simp [try_boot, hcb, hr]

theorem resolveIndex_some_of_ne (order seq : Nat)
    (hf : extractField order seq ≠ 0) :
    resolveIndex order seq = some (extractField order seq - 1) := by
  simp [resolveIndex, hf]

theorem try_boot_dispatch (cfg : Config) (ipl : Ipl) (w : World) (seq bd : Nat)
    (hcb : cfg.configBoot = true)
    (hr : resolveIndex ipl.bootorder seq = some bd) (hlt : bd < ipl.count) :
    try_boot cfg ipl w seq = dispatch cfg ipl w bd := by
  rw [try_boot_some cfg ipl w seq bd hcb hr, if_neg (Nat.not_le.mpr hlt)]

theorem canon_07c0 : canonicalize 0x07c0 = (0, 0x7c00) := by decide

theorem dispatch_type_floppy (cfg : Config) (ipl : Ipl) (w : World) (bd : Nat)
    (ht : (ipl.table.getD bd noEntry).type = IPL_TYPE_FLOPPY) :
    dispatch cfg ipl w bd =
      ⟨Event.bootingFrom bd :: (diskBoot ipl w IPL_TYPE_FLOPPY).1,
       (diskBoot ipl w IPL_TYPE_FLOPPY).2⟩ := by
  simp only [dispatch, printf_bootdev]
  rw [ht]
  norm_num [IPL_TYPE_FLOPPY, IPL_TYPE_HARDDISK, IPL_TYPE_CDROM, IPL_TYPE_BEV]

theorem dispatch_type_harddisk (cfg : Config) (ipl : Ipl) (w : World) (bd : Nat)
    (ht : (ipl.table.getD bd noEntry).type = IPL_TYPE_HARDDISK) :
    dispatch cfg ipl w bd =
      ⟨Event.bootingFrom bd :: (diskBoot ipl w IPL_TYPE_HARDDISK).1,
       (diskBoot ipl w IPL_TYPE_HARDDISK).2⟩ := by
  simp only [dispatch, printf_bootdev]
  rw [ht]
  norm_num [IPL_TYPE_FLOPPY, IPL_TYPE_HARDDISK, IPL_TYPE_CDROM, IPL_TYPE_BEV]

theorem dispatch_type_cdrom (cfg : Config) (ipl : Ipl) (w : World) (bd : Nat)
    (ht : (ipl.table.getD bd noEntry).type = IPL_TYPE_CDROM) :
    dispatch cfg ipl w bd =
      ⟨Event.bootingFrom bd :: (cdromBoot cfg w IPL_TYPE_CDROM).1,
       (cdromBoot cfg w IPL_TYPE_CDROM).2⟩ := by
  simp only [dispatch, printf_bootdev]
  rw [ht]
  norm_num [IPL_TYPE_FLOPPY, IPL_TYPE_HARDDISK, IPL_TYPE_CDROM, IPL_TYPE_BEV]

theorem dispatch_type_bev (cfg : Config) (ipl : Ipl) (w : World) (bd : Nat)
    (ht : (ipl.table.getD bd noEntry).type = IPL_TYPE_BEV) :
    dispatch cfg ipl w bd =
      ⟨[Event.bootingFrom bd,
        Event.diagBootingFromAddr ((ipl.table.getD bd noEntry).vector >>> 16)
          ((ipl.table.getD bd noEntry).vector &&& 0xffff)],
       TryBootResult.transfer
         (transferFrame ((ipl.table.getD bd noEntry).vector >>> 16)
            ((ipl.table.getD bd noEntry).vector &&& 0xffff) 0)⟩ := by
  simp only [dispatch, printf_bootdev, bevBoot]
  rw [ht]
  norm_num [IPL_TYPE_FLOPPY, IPL_TYPE_HARDDISK, IPL_TYPE_CDROM, IPL_TYPE_BEV]

theorem dispatch_type_net (cfg : Config) (ipl : Ipl) (w : World) (bd : Nat)
    (ht : (ipl.table.getD bd noEntry).type = 4) :
    dispatch cfg ipl w bd = ⟨[Event.bootingFrom bd], TryBootResult.ret⟩ := by
  simp only [dispatch, printf_bootdev]
  rw [ht]
  norm_num [IPL_TYPE_FLOPPY, IPL_TYPE_HARDDISK, IPL_TYPE_CDROM, IPL_TYPE_BEV]

theorem dispatch_type_bad (cfg : Config) (ipl : Ipl) (w : World) (bd : Nat)
    (ht : (ipl.table.getD bd noEntry).type = 0 ∨
      (4 < (ipl.table.getD bd noEntry).type ∧
       (ipl.table.getD bd noEntry).type ≠ IPL_TYPE_BEV)) :
    dispatch cfg ipl w bd =
      ⟨[Event.bootingFrom bd], TryBootResult.panic PanicMsg.badDriveType⟩ := by
  rcases ht with h0 | ⟨h4, hb⟩
  · simp only [dispatch, printf_bootdev]
    rw [h0]
    norm_num [IPL_TYPE_BEV]
  · simp only [dispatch, printf_bootdev]
    rw [if_neg hb, if_pos (Or.inr h4)]

theorem diskBoot_hd_success (ipl : Ipl) (w : World)
    (hc : w.diskFlags &&& F_CF = 0) (hs : w.sigWord = MBR_SIGNATURE) :
    diskBoot ipl w IPL_TYPE_HARDDISK =
      ([Event.diskRead 0x80 0x07c0, Event.diagBootingFromAddr 0 0x7c00],
       TryBootResult.transfer (transferFrame 0 0x7c00 0x80)) := by
  simp [diskBoot, hc, hs, canon_07c0, IPL_TYPE_HARDDISK, IPL_TYPE_FLOPPY]

theorem diskBoot_hd_sigbad (ipl : Ipl) (w : World)
    (hc : w.diskFlags &&& F_CF = 0) (hs : w.sigWord ≠ MBR_SIGNATURE) :
    diskBoot ipl w IPL_TYPE_HARDDISK =
      ([Event.diskRead 0x80 0x07c0, Event.bootFailure IPL_TYPE_HARDDISK 0],
       TryBootResult.ret) := by
  simp [diskBoot, hc, hs, print_boot_failure, retOrPanic, Option.elim,
        IPL_TYPE_HARDDISK, IPL_TYPE_FLOPPY]

theorem diskBoot_fd_success (ipl : Ipl) (w : World)
    (hc : w.diskFlags &&& F_CF = 0)
    (hok : ipl.checkfloppysig = false ∨ w.sigWord = MBR_SIGNATURE) :
    diskBoot ipl w IPL_TYPE_FLOPPY =
      ([Event.diskRead 0x00 0x07c0, Event.diagBootingFromAddr 0 0x7c00],
       TryBootResult.transfer (transferFrame 0 0x7c00 0x00)) := by
  rcases hok with h | h
  · simp [diskBoot, hc, h, canon_07c0, IPL_TYPE_HARDDISK, IPL_TYPE_FLOPPY]
  · simp [diskBoot, hc, h, canon_07c0, IPL_TYPE_HARDDISK, IPL_TYPE_FLOPPY]

theorem diskBoot_fd_sigbad (ipl : Ipl) (w : World)
    (hc : w.diskFlags &&& F_CF = 0) (hcf : ipl.checkfloppysig = true)
    (hs : w.sigWord ≠ MBR_SIGNATURE) :
    diskBoot ipl w IPL_TYPE_FLOPPY =
      ([Event.diskRead 0x00 0x07c0, Event.bootFailure IPL_TYPE_FLOPPY 0],
       TryBootResult.ret) := by
  simp [diskBoot, hc, hcf, hs, print_boot_failure, retOrPanic, Option.elim,
        IPL_TYPE_HARDDISK, IPL_TYPE_FLOPPY]

theorem cdromBoot_success (cfg : Config) (w : World)
    (hcc : cfg.configCdromBoot = true) (hst : w.cdromStatus = 0) :
    cdromBoot cfg w IPL_TYPE_CDROM =
      ([Event.cdromBootCall,
        Event.diagBootingFromAddr (canonicalize w.cdemuLoadSeg).1
          (canonicalize w.cdemuLoadSeg).2],
       TryBootResult.transfer
         (transferFrame (canonicalize w.cdemuLoadSeg).1
            (canonicalize w.cdemuLoadSeg).2 w.cdemuDrive)) := by
  simp [cdromBoot, hcc, hst]

theorem transferFrame_fields (s i d : Nat) :
    (transferFrame s i d).ip = i ∧ (transferFrame s i d).cs = s ∧
    (transferFrame s i d).dx = d ∧ (transferFrame s i d).ax = 0xaa55 ∧
    (transferFrame s i d).ds = 0 ∧ (transferFrame s i d).es = 0 ∧
    (transferFrame s i d).di = 0 ∧ (transferFrame s i d).si = 0 ∧
    (transferFrame s i d).bp = 0 ∧ (transferFrame s i d).bx = 0 ∧
    (transferFrame s i d).cx = 0 ∧ (transferFrame s i d).flags = 0 := by
  simp [transferFrame, zeroBregs, Nat.zero_and, Nat.zero_or]

/-- C2: for every boot order and attempt index (boot support compiled
in), the resolve step fails with NoBootableDevice iff the extracted
4-bit field equals 0, and that failure is fatal: `try_boot` ends in the
no-bootable-device panic, and `do_boot` therefore ends in that panic as
well instead of returning or invoking the recovery service. -/
theorem noBootable_iff_field_zero (cfg : Config) (ipl : Ipl) (w : World)
    (seq : Nat) (hcb : cfg.configBoot = true) :
    ((try_boot cfg ipl w seq).result =
        TryBootResult.panic PanicMsg.noBootableDevice ↔
      extractField ipl.bootorder seq = 0) ∧
    (extractField ipl.bootorder seq = 0 →
      (do_boot cfg ipl w seq).2 = FinalResult.panic PanicMsg.noBootableDevice) := by
  constructor
  · constructor
    · intro h
      by_contra hf
      have hr := resolveIndex_some_of_ne ipl.bootorder seq hf
      rw [try_boot_some cfg ipl w seq _ hcb hr] at h
      revert h
      split
      · simp
      · exact fun h => dispatch_ne_noBootable cfg ipl w _ h
    · intro hf
      rw [try_boot_field_zero cfg ipl w seq hcb hf]
  · intro hf
    have h := try_boot_field_zero cfg ipl w seq hcb hf
    simp [do_boot, h]

theorem noBootable_iff_field_zero_witness :
    cfg0.configBoot = true ∧
    (((try_boot cfg0 iplZero w0 0).result =
        TryBootResult.panic PanicMsg.noBootableDevice ↔
      extractField iplZero.bootorder 0 = 0) ∧
    (extractField iplZero.bootorder 0 = 0 →
      (do_boot cfg0 iplZero w0 0).2 =
        FinalResult.panic PanicMsg.noBootableDevice)) :=
  ⟨rfl, noBootable_iff_field_zero cfg0 iplZero w0 0 rfl⟩

/-- C4: after a successful first-sector read, a hard-disk entry always
requires the trailing signature to equal 0xAA55; a floppy entry
requires it iff the `checkfloppysig` policy flag is set; optical and
expansion-BEV entries never consult the signature word (their outcome
is invariant in it).  A signature mismatch yields the reason-0 ("not a
bootable disk") boot-failure report and a plain return — no control
transfer. -/
theorem signature_policy (cfg : Config) (ipl : Ipl) (w : World) (seq bd : Nat)
    (hcb : cfg.configBoot = true)
    (hr : resolveIndex ipl.bootorder seq = some bd)
    (hlt : bd < ipl.count)
    (hc : w.diskFlags &&& F_CF = 0) :
    ((ipl.table.getD bd noEntry).type = IPL_TYPE_HARDDISK →
      w.sigWord ≠ MBR_SIGNATURE →
      try_boot cfg ipl w seq =
        ⟨[Event.bootingFrom bd, Event.diskRead 0x80 0x07c0,
          Event.bootFailure IPL_TYPE_HARDDISK 0], TryBootResult.ret⟩) ∧
    ((ipl.table.getD bd noEntry).type = IPL_TYPE_HARDDISK →
      w.sigWord = MBR_SIGNATURE →
      (try_boot cfg ipl w seq).result =
        TryBootResult.transfer (transferFrame 0 0x7c00 0x80)) ∧
    ((ipl.table.getD bd noEntry).type = IPL_TYPE_FLOPPY →
      ipl.checkfloppysig = true → w.sigWord ≠ MBR_SIGNATURE →
      try_boot cfg ipl w seq =
        ⟨[Event.bootingFrom bd, Event.diskRead 0x00 0x07c0,
          Event.bootFailure IPL_TYPE_FLOPPY 0], TryBootResult.ret⟩) ∧
    ((ipl.table.getD bd noEntry).type = IPL_TYPE_FLOPPY →
      (ipl.checkfloppysig = false ∨ w.sigWord = MBR_SIGNATURE) →
      (try_boot cfg ipl w seq).result =
        TryBootResult.transfer (transferFrame 0 0x7c00 0x00)) ∧
    (((ipl.table.getD bd noEntry).type = IPL_TYPE_CDROM ∨
      (ipl.table.getD bd noEntry).type = IPL_TYPE_BEV) →
      ∀ s1 s2 : Nat,
        try_boot cfg ipl { w with sigWord := s1 } seq =
        try_boot cfg ipl { w with sigWord := s2 } seq) := by
  refine ⟨?_, ?_, ?_, ?_, ?_⟩
  · intro ht hs
    rw [try_boot_dispatch cfg ipl w seq bd hcb hr hlt,
        dispatch_type_harddisk cfg ipl w bd ht, diskBoot_hd_sigbad ipl w hc hs]
  · intro ht hs
    rw [try_boot_dispatch cfg ipl w seq bd hcb hr hlt,
        dispatch_type_harddisk cfg ipl w bd ht, diskBoot_hd_success ipl w hc hs]
  · intro ht hcf hs
    rw [try_boot_dispatch cfg ipl w seq bd hcb hr hlt,
        dispatch_type_floppy cfg ipl w bd ht, diskBoot_fd_sigbad ipl w hc hcf hs]
  · intro ht hok
    rw [try_boot_dispatch cfg ipl w seq bd hcb hr hlt,
        dispatch_type_floppy cfg ipl w bd ht, diskBoot_fd_success ipl w hc hok]
  · intro ht s1 s2
    rw [try_boot_dispatch cfg ipl { w with sigWord := s1 } seq bd hcb hr hlt,
        try_boot_dispatch cfg ipl { w with sigWord := s2 } seq bd hcb hr hlt]
    rcases ht with h | h
    · rw [dispatch_type_cdrom cfg ipl { w with sigWord := s1 } bd h,
          dispatch_type_cdrom cfg ipl { w with sigWord := s2 } bd h]
      simp [cdromBoot]
    · rw [dispatch_type_bev cfg ipl { w with sigWord := s1 } bd h,
          dispatch_type_bev cfg ipl { w with sigWord := s2 } bd h]

theorem signature_policy_witness :
    cfg0.configBoot = true ∧
    resolveIndex iplHD.bootorder 0 = some 0 ∧
    0 < iplHD.count ∧
    wBadSig.diskFlags &&& F_CF = 0 ∧
    ((iplHD.table.getD 0 noEntry).type = IPL_TYPE_HARDDISK →
      wBadSig.sigWord ≠ MBR_SIGNATURE →
      try_boot cfg0 iplHD wBadSig 0 =
        ⟨[Event.bootingFrom 0, Event.diskRead 0x80 0x07c0,
          Event.bootFailure IPL_TYPE_HARDDISK 0], TryBootResult.ret⟩) :=
  ⟨rfl, by decide, by decide, by decide,
   (signature_policy cfg0 iplHD wBadSig 0 0 rfl (by decide) (by decide)
      (by decide)).1⟩

/-- C5 counterexample: with a dispatched entry of deviceType None
(type 0), `try_boot` ends in the fatal Bad-drive-type panic — it does
not silently return, refuting the claim that a None entry is a silent
skip. -/
theorem none_entry_panics :
    (try_boot cfg0 iplNone w0 0).result =
      TryBootResult.panic PanicMsg.badDriveType ∧
    (try_boot cfg0 iplNone w0 0).result ≠ TryBootResult.ret := by
  exact ⟨by decide, by decide⟩

/-- C5 (amended): a dispatched entry whose deviceType is None (0) or an
unrecognized value other than 4 and the BEV type is a fatal
Bad-drive-type panic, raised while printing the device name; only the
network-label type 4 reaches the dispatch switch's default case and is
a true silent skip — the function returns without transferring control
and without reporting any boot failure. -/
theorem unrecognized_type_behavior (cfg : Config) (ipl : Ipl) (w : World)
    (seq bd : Nat) (hcb : cfg.configBoot = true)
    (hr : resolveIndex ipl.bootorder seq = some bd) (hlt : bd < ipl.count) :
    (((ipl.table.getD bd noEntry).type = 0 ∨
      (4 < (ipl.table.getD bd noEntry).type ∧
       (ipl.table.getD bd noEntry).type ≠ IPL_TYPE_BEV)) →
      try_boot cfg ipl w seq =
        ⟨[Event.bootingFrom bd], TryBootResult.panic PanicMsg.badDriveType⟩) ∧
    ((ipl.table.getD bd noEntry).type = 4 →
      try_boot cfg ipl w seq = ⟨[Event.bootingFrom bd], TryBootResult.ret⟩) := by
  constructor
  · intro ht
    rw [try_boot_dispatch cfg ipl w seq bd hcb hr hlt,
        dispatch_type_bad cfg ipl w bd ht]
  · intro ht
    rw [try_boot_dispatch cfg ipl w seq bd hcb hr hlt,
        dispatch_type_net cfg ipl w bd ht]

theorem unrecognized_type_behavior_witness :
    cfg0.configBoot = true ∧
    resolveIndex iplNet.bootorder 0 = some 0 ∧
    0 < iplNet.count ∧
    ((iplNet.table.getD 0 noEntry).type = 4 →
      try_boot cfg0 iplNet w0 0 =
        ⟨[Event.bootingFrom 0], TryBootResult.ret⟩) :=
  ⟨rfl, by decide, by decide,
   (unrecognized_type_behavior cfg0 iplNet w0 0 0 rfl (by decide)
      (by decide)).2⟩

/-- C6: when the boot order resolves an attempt to a table index at or
beyond `count`, the attempt is unresolvable: `try_boot` emits only the
diagnostic-level invalid-boot-device message and returns — `do_boot`
then falls through to the recovery invocation — with no user-visible
boot-failure message and with an outcome distinct from the fatal
NoBootableDevice panic. -/
theorem out_of_range_index_diag_return (cfg : Config) (ipl : Ipl) (w : World)
    (seq bd : Nat) (hcb : cfg.configBoot = true)
    (hr : resolveIndex ipl.bootorder seq = some bd)
    (hge : ipl.count ≤ bd) :
    try_boot cfg ipl w seq =
      ⟨[Event.diagInvalidBootdev bd], TryBootResult.ret⟩ ∧
    (do_boot cfg ipl w seq).2 = FinalResult.invokeRecovery ∧
    (∀ t r, Event.bootFailure t r ∉ (try_boot cfg ipl w seq).events) ∧
    (try_boot cfg ipl w seq).result ≠
      TryBootResult.panic PanicMsg.noBootableDevice := by
  have h := try_boot_some cfg ipl w seq bd hcb hr
  rw [if_pos hge] at h
  refine ⟨h, ?_, ?_, ?_⟩
  · simp [do_boot, h]
  · intro t r
    rw [h]
    simp
  · rw [h]
    simp

theorem out_of_range_index_diag_return_witness :
    cfg0.configBoot = true ∧
    resolveIndex iplOOR.bootorder 0 = some 2 ∧
    iplOOR.count ≤ 2 ∧
    (try_boot cfg0 iplOOR w0 0 =
      ⟨[Event.diagInvalidBootdev 2], TryBootResult.ret⟩ ∧
    (do_boot cfg0 iplOOR w0 0).2 = FinalResult.invokeRecovery ∧
    (∀ t r, Event.bootFailure t r ∉ (try_boot cfg0 iplOOR w0 0).events) ∧
    (try_boot cfg0 iplOOR w0 0).result ≠
      TryBootResult.panic PanicMsg.noBootableDevice) :=
  ⟨rfl, by decide, by decide,
   out_of_range_index_diag_return cfg0 iplOOR w0 0 2 rfl (by decide)
     (by decide)⟩

/-- C8: for an ExpansionBEV entry the resolved entry point comes
directly from the entry's 32-bit vector — segment = high 16 bits,
offset = low 16 bits — no disk or optical I/O happens during the
attempt, and the drive-identifier byte handed to the control transfer
is 0. -/
theorem bev_entry_transfer (cfg : Config) (ipl : Ipl) (w : World)
    (seq bd : Nat) (hcb : cfg.configBoot = true)
    (hr : resolveIndex ipl.bootorder seq = some bd) (hlt : bd < ipl.count)
    (ht : (ipl.table.getD bd noEntry).type = IPL_TYPE_BEV) :
    try_boot cfg ipl w seq =
      ⟨[Event.bootingFrom bd,
        Event.diagBootingFromAddr ((ipl.table.getD bd noEntry).vector >>> 16)
          ((ipl.table.getD bd noEntry).vector &&& 0xffff)],
       TryBootResult.transfer
         (transferFrame ((ipl.table.getD bd noEntry).vector >>> 16)
            ((ipl.table.getD bd noEntry).vector &&& 0xffff) 0)⟩ ∧
    (∀ d s, Event.diskRead d s ∉ (try_boot cfg ipl w seq).events) ∧
    Event.cdromBootCall ∉ (try_boot cfg ipl w seq).events ∧
    (transferFrame ((ipl.table.getD bd noEntry).vector >>> 16)
       ((ipl.table.getD bd noEntry).vector &&& 0xffff) 0).dx = 0 := by
  have h := try_boot_dispatch cfg ipl w seq bd hcb hr hlt
  rw [dispatch_type_bev cfg ipl w bd ht] at h
  refine ⟨h, ?_, ?_, ?_⟩
  · intro d s
    rw [h]
    simp
  · rw [h]
    simp
  · exact (transferFrame_fields _ _ 0).2.2.1

theorem bev_entry_transfer_witness :
    cfg0.configBoot = true ∧
    resolveIndex iplBEV.bootorder 0 = some 0 ∧
    0 < iplBEV.count ∧
    (iplBEV.table.getD 0 noEntry).type = IPL_TYPE_BEV ∧
    (iplBEV.table.getD 0 noEntry).vector >>> 16 = 0x1234 ∧
    (iplBEV.table.getD 0 noEntry).vector &&& 0xffff = 0x0056 ∧
    (try_boot cfg0 iplBEV w0 0 =
      ⟨[Event.bootingFrom 0,
        Event.diagBootingFromAddr ((iplBEV.table.getD 0 noEntry).vector >>> 16)
          ((iplBEV.table.getD 0 noEntry).vector &&& 0xffff)],
       TryBootResult.transfer
         (transferFrame ((iplBEV.table.getD 0 noEntry).vector >>> 16)
            ((iplBEV.table.getD 0 noEntry).vector &&& 0xffff) 0)⟩ ∧
    (∀ d s, Event.diskRead d s ∉ (try_boot cfg0 iplBEV w0 0).events) ∧
    Event.cdromBootCall ∉ (try_boot cfg0 iplBEV w0 0).events ∧
    (transferFrame ((iplBEV.table.getD 0 noEntry).vector >>> 16)
       ((iplBEV.table.getD 0 noEntry).vector &&& 0xffff) 0).dx = 0) :=
  ⟨rfl, by decide, by decide, by decide, by decide, by decide,
   bev_entry_transfer cfg0 iplBEV w0 0 0 rfl (by decide) (by decide)
     (by decide)⟩

/-- C9: on a successful load of any device class, the control-transfer
frame carries the target offset in the instruction-pointer slot, the
target segment in the code-segment slot, the device-appropriate drive
identifier (0x00 floppy, 0x80 hard disk, the emulated drive id for
optical, 0 for BEV) in the dl slot (the dx register), and the magic
value 0xAA55 in the ax slot. -/
theorem transfer_frame_contract (cfg : Config) (ipl : Ipl) (w : World)
    (seq bd : Nat) (hcb : cfg.configBoot = true)
    (hr : resolveIndex ipl.bootorder seq = some bd)
    (hlt : bd < ipl.count) :
    ((ipl.table.getD bd noEntry).type = IPL_TYPE_FLOPPY →
      w.diskFlags &&& F_CF = 0 →
      (ipl.checkfloppysig = false ∨ w.sigWord = MBR_SIGNATURE) →
      (try_boot cfg ipl w seq).result =
        TryBootResult.transfer (transferFrame 0 0x7c00 0x00) ∧
      (transferFrame 0 0x7c00 0x00).ip = 0x7c00 ∧
      (transferFrame 0 0x7c00 0x00).cs = 0 ∧
      (transferFrame 0 0x7c00 0x00).dx = 0x00 ∧
      (transferFrame 0 0x7c00 0x00).ax = 0xaa55) ∧
    ((ipl.table.getD bd noEntry).type = IPL_TYPE_HARDDISK →
      w.diskFlags &&& F_CF = 0 → w.sigWord = MBR_SIGNATURE →
      (try_boot cfg ipl w seq).result =
        TryBootResult.transfer (transferFrame 0 0x7c00 0x80) ∧
      (transferFrame 0 0x7c00 0x80).ip = 0x7c00 ∧
      (transferFrame 0 0x7c00 0x80).cs = 0 ∧
      (transferFrame 0 0x7c00 0x80).dx = 0x80 ∧
      (transferFrame 0 0x7c00 0x80).ax = 0xaa55) ∧
    ((ipl.table.getD bd noEntry).type = IPL_TYPE_CDROM →
      cfg.configCdromBoot = true → w.cdromStatus = 0 →
      (try_boot cfg ipl w seq).result =
        TryBootResult.transfer
          (transferFrame (canonicalize w.cdemuLoadSeg).1
            (canonicalize w.cdemuLoadSeg).2 w.cdemuDrive) ∧
      (transferFrame (canonicalize w.cdemuLoadSeg).1
        (canonicalize w.cdemuLoadSeg).2 w.cdemuDrive).ip =
          (canonicalize w.cdemuLoadSeg).2 ∧
      (transferFrame (canonicalize w.cdemuLoadSeg).1
        (canonicalize w.cdemuLoadSeg).2 w.cdemuDrive).cs =
          (canonicalize w.cdemuLoadSeg).1 ∧
      (transferFrame (canonicalize w.cdemuLoadSeg).1
        (canonicalize w.cdemuLoadSeg).2 w.cdemuDrive).dx = w.cdemuDrive ∧
      (transferFrame (canonicalize w.cdemuLoadSeg).1
        (canonicalize w.cdemuLoadSeg).2 w.cdemuDrive).ax = 0xaa55) ∧
    ((ipl.table.getD bd noEntry).type = IPL_TYPE_BEV →
      (try_boot cfg ipl w seq).result =
        TryBootResult.transfer
          (transferFrame ((ipl.table.getD bd noEntry).vector >>> 16)
            ((ipl.table.getD bd noEntry).vector &&& 0xffff) 0) ∧
      (transferFrame ((ipl.table.getD bd noEntry).vector >>> 16)
        ((ipl.table.getD bd noEntry).vector &&& 0xffff) 0).ip =
          (ipl.table.getD bd noEntry).vector &&& 0xffff ∧
      (transferFrame ((ipl.table.getD bd noEntry).vector >>> 16)
        ((ipl.table.getD bd noEntry).vector &&& 0xffff) 0).cs =
          (ipl.table.getD bd noEntry).vector >>> 16 ∧
      (transferFrame ((ipl.table.getD bd noEntry).vector >>> 16)
        ((ipl.table.getD bd noEntry).vector &&& 0xffff) 0).dx = 0 ∧
      (transferFrame ((ipl.table.getD bd noEntry).vector >>> 16)
        ((ipl.table.getD bd noEntry).vector &&& 0xffff) 0).ax = 0xaa55) := by
  refine ⟨?_, ?_, ?_, ?_⟩
  · intro ht hc hok
    obtain ⟨hip, hcs, hdx, hax, -⟩ := transferFrame_fields 0 0x7c00 0x00
    refine ⟨?_, hip, hcs, hdx, hax⟩
    rw [try_boot_dispatch cfg ipl w seq bd hcb hr hlt,
        dispatch_type_floppy cfg ipl w bd ht, diskBoot_fd_success ipl w hc hok]
  · intro ht hc hs
    obtain ⟨hip, hcs, hdx, hax, -⟩ := transferFrame_fields 0 0x7c00 0x80
    refine ⟨?_, hip, hcs, hdx, hax⟩
    rw [try_boot_dispatch cfg ipl w seq bd hcb hr hlt,
        dispatch_type_harddisk cfg ipl w bd ht, diskBoot_hd_success ipl w hc hs]
  · intro ht hcc hst
    obtain ⟨hip, hcs, hdx, hax, -⟩ :=
      transferFrame_fields (canonicalize w.cdemuLoadSeg).1
        (canonicalize w.cdemuLoadSeg).2 w.cdemuDrive
    refine ⟨?_, hip, hcs, hdx, hax⟩
    rw [try_boot_dispatch cfg ipl w seq bd hcb hr hlt,
        dispatch_type_cdrom cfg ipl w bd ht, cdromBoot_success cfg w hcc hst]
  · intro ht
    obtain ⟨hip, hcs, hdx, hax, -⟩ :=
      transferFrame_fields ((ipl.table.getD bd noEntry).vector >>> 16)
        ((ipl.table.getD bd noEntry).vector &&& 0xffff) 0
    refine ⟨?_, hip, hcs, hdx, hax⟩
    rw [try_boot_dispatch cfg ipl w seq bd hcb hr hlt,
        dispatch_type_bev cfg ipl w bd ht]

theorem transfer_frame_contract_witness :
    cfg0.configBoot = true ∧
    resolveIndex iplHD.bootorder 0 = some 0 ∧
    0 < iplHD.count ∧
    ((iplHD.table.getD 0 noEntry).type = IPL_TYPE_HARDDISK →
      w0.diskFlags &&& F_CF = 0 → w0.sigWord = MBR_SIGNATURE →
      (try_boot cfg0 iplHD w0 0).result =
        TryBootResult.transfer (transferFrame 0 0x7c00 0x80) ∧
      (transferFrame 0 0x7c00 0x80).ip = 0x7c00 ∧
      (transferFrame 0 0x7c00 0x80).cs = 0 ∧
      (transferFrame 0 0x7c00 0x80).dx = 0x80 ∧
      (transferFrame 0 0x7c00 0x80).ax = 0xaa55) :=
  ⟨rfl, by decide, by decide,
   (transfer_frame_contract cfg0 iplHD w0 0 0 rfl (by decide)
      (by decide)).2.1⟩

/-- C10: the control-transfer frame is zero-initialized before the four
assigned slots are set, so every register slot other than ip, cs, dl
(inside dx) and ax is zero — including the high byte of dx when the
drive id is a byte; and for floppy and hard-disk boots the entry point
is always segment 0x0000, offset 0x7C00, because the fixed load segment
0x07C0 canonicalizes to exactly that pair. -/
theorem frame_zero_init (cfg : Config) (ipl : Ipl) (w : World)
    (seq bd s i d : Nat) (hd : d < 256)
    (hcb : cfg.configBoot = true)
    (hr : resolveIndex ipl.bootorder seq = some bd)
    (hlt : bd < ipl.count)
    (hc : w.diskFlags &&& F_CF = 0) :
    ((transferFrame s i d).ds = 0 ∧ (transferFrame s i d).es = 0 ∧
     (transferFrame s i d).di = 0 ∧ (transferFrame s i d).si = 0 ∧
     (transferFrame s i d).bp = 0 ∧ (transferFrame s i d).bx = 0 ∧
     (transferFrame s i d).cx = 0 ∧ (transferFrame s i d).flags = 0 ∧
     (transferFrame s i d).dx >>> 8 = 0) ∧
    canonicalize 0x07c0 = (0, 0x7c00) ∧
    (((ipl.table.getD bd noEntry).type = IPL_TYPE_FLOPPY ∨
      (ipl.table.getD bd noEntry).type = IPL_TYPE_HARDDISK) →
      w.sigWord = MBR_SIGNATURE →
      (try_boot cfg ipl w seq).result =
        TryBootResult.transfer (transferFrame 0 0x7c00
          (if (ipl.table.getD bd noEntry).type = IPL_TYPE_HARDDISK
           then 0x80 else 0x00)) ∧
      (transferFrame 0 0x7c00
        (if (ipl.table.getD bd noEntry).type = IPL_TYPE_HARDDISK
         then 0x80 else 0x00)).cs = 0 ∧
      (transferFrame 0 0x7c00
        (if (ipl.table.getD bd noEntry).type = IPL_TYPE_HARDDISK
         then 0x80 else 0x00)).ip = 0x7c00) := by
  obtain ⟨-, -, hdx, -, hds, hes, hdi, hsi, hbp, hbx, hcx, hfl⟩ :=
    transferFrame_fields s i d
  refine ⟨⟨hds, hes, hdi, hsi, hbp, hbx, hcx, hfl, ?_⟩, canon_07c0, ?_⟩
  · rw [hdx, Nat.shiftRight_eq_div_pow]
    have h8 : (2 : Nat) ^ 8 = 256 := by norm_num
    rw [h8]
    exact Nat.div_eq_of_lt hd
  · intro htt hs
    rcases htt with h | h
    · rw [h, if_neg (by decide : ¬ (IPL_TYPE_FLOPPY = IPL_TYPE_HARDDISK))]
      refine ⟨?_, (transferFrame_fields 0 0x7c00 0x00).2.1,
        (transferFrame_fields 0 0x7c00 0x00).1⟩
      rw [try_boot_dispatch cfg ipl w seq bd hcb hr hlt,
          dispatch_type_floppy cfg ipl w bd h,
          diskBoot_fd_success ipl w hc (Or.inr hs)]
    · rw [h, if_pos rfl]
      refine ⟨?_, (transferFrame_fields 0 0x7c00 0x80).2.1,
        (transferFrame_fields 0 0x7c00 0x80).1⟩
      rw [try_boot_dispatch cfg ipl w seq bd hcb hr hlt,
          dispatch_type_harddisk cfg ipl w bd h,
          diskBoot_hd_success ipl w hc hs]

theorem frame_zero_init_witness :
    7 < 256 ∧
    cfg0.configBoot = true ∧
    resolveIndex iplHD.bootorder 0 = some 0 ∧
    0 < iplHD.count ∧
    w0.diskFlags &&& F_CF = 0 ∧
    (((transferFrame 0x1234 5 7).ds = 0 ∧ (transferFrame 0x1234 5 7).es = 0 ∧
      (transferFrame 0x1234 5 7).di = 0 ∧ (transferFrame 0x1234 5 7).si = 0 ∧
      (transferFrame 0x1234 5 7).bp = 0 ∧ (transferFrame 0x1234 5 7).bx = 0 ∧
      (transferFrame 0x1234 5 7).cx = 0 ∧ (transferFrame 0x1234 5 7).flags = 0 ∧
      (transferFrame 0x1234 5 7).dx >>> 8 = 0) ∧
     canonicalize 0x07c0 = (0, 0x7c00) ∧
     (((iplHD.table.getD 0 noEntry).type = IPL_TYPE_FLOPPY ∨
       (iplHD.table.getD 0 noEntry).type = IPL_TYPE_HARDDISK) →
       w0.sigWord = MBR_SIGNATURE →
       (try_boot cfg0 iplHD w0 0).result =
         TryBootResult.transfer (transferFrame 0 0x7c00
           (if (iplHD.table.getD 0 noEntry).type = IPL_TYPE_HARDDISK
            then 0x80 else 0x00)) ∧
       (transferFrame 0 0x7c00
         (if (iplHD.table.getD 0 noEntry).type = IPL_TYPE_HARDDISK
          then 0x80 else 0x00)).cs = 0 ∧
       (transferFrame 0 0x7c00
         (if (iplHD.table.getD 0 noEntry).type = IPL_TYPE_HARDDISK
          then 0x80 else 0x00)).ip = 0x7c00)) :=
  ⟨by decide, rfl, by decide, by decide, by decide,
   frame_zero_init cfg0 iplHD w0 0 0 0x1234 5 7 (by decide) rfl (by decide)
     (by decide) (by decide)⟩

end Boot
